import Mathlib

/-!
# Certificate gallery front-end (`src/app.js`): the filtering pipeline

A shallow embedding of the client-side filtering and derivation code of
`app.js` (`updateStats`, `populateFilters`, `applyFilters`,
`updateActiveFilters`, `displayCertificates`, `setViewMode`, `clearSearch`,
`resetFilters`, `removeFilter`, and the success path of `loadCertificates`).

* JavaScript strings are sequences of UTF-16 code units (`JSString`).
* The page is a record `State`: the three script globals `allCertificates`,
  `filteredCertificates`, `viewMode`, and one field per DOM property the
  script reads or writes (named after the element id).
* `String.prototype.toLowerCase` is a host built-in driven by the Unicode
  tables; every function that calls it takes it as the parameter
  `toLowerCase`.  `asciiToLowerCase` is its restriction to ASCII text and
  `tableToLowerCase` adds its values on four Greek texts.
* Rendered HTML is kept as data: a filter chip is a `FilterTag`, a card is
  the certificate it shows.
-/

namespace Gallery

/-! ## JavaScript values -/

/-- A JavaScript string, as its sequence of UTF-16 code units. -/
abbrev JSString := List Nat

/-- UTF-16 encoding of one Unicode scalar value. -/
def utf16 (c : Char) : List Nat :=
  if c.toNat < 65536 then [c.toNat]
  else [55296 + (c.toNat - 65536) / 1024, 56320 + (c.toNat - 65536) % 1024]

/-- The JavaScript string written by a literal. -/
def js (s : String) : JSString := s.toList.flatMap utf16

/-- The empty string is the only falsy string. -/
def truthy (s : JSString) : Bool := !s.isEmpty

/-- Method `String.prototype.includes(t)`: `t` occurs in `s` as a run of
consecutive code units. -/
def includes (s t : JSString) : Bool := decide (t <:+: s)

/-- Lower-casing of the ASCII letters `A`..`Z`, other code units kept: what
`String.prototype.toLowerCase` does on ASCII text. -/
def asciiToLowerCase (s : JSString) : JSString :=
  s.map (fun u => if 65 ≤ u ∧ u ≤ 90 then u + 32 else u)

/-- Decimal digits of `n`, most significant first, pushed in front of `acc`;
`fuel` bounds the number of digits. -/
def digitsAux : Nat → Nat → JSString → JSString
  | 0, _, acc => acc
  | fuel + 1, n, acc =>
    if n < 10 then (48 + n) :: acc
    else digitsAux fuel (n / 10) ((48 + n % 10) :: acc)

/-- Method `Number.prototype.toString()` on a non-negative integer. -/
def numberToString (n : Nat) : JSString := digitsAux (n + 1) n []

/-- One `Set.prototype.add`: a value already present is not added again. -/
def setAdd {α : Type} [DecidableEq α] (s : List α) (x : α) : List α :=
  if x ∈ s then s else s ++ [x]

/-- Expression `[...new Set(xs)]`: the values of `xs` in order of first
occurrence. -/
def newSet {α : Type} [DecidableEq α] (xs : List α) : List α :=
  xs.foldl setAdd []

/-- Method `Array.prototype.sort()` without a comparator: a stable sort on the
string conversion of the elements, compared code unit by code unit. -/
def sortDefault {α : Type} (toStr : α → JSString) (xs : List α) : List α :=
  xs.insertionSort (fun a b => toStr a ≤ toStr b)

/-! ## Data model -/

/-- The object built for one token in `loadCertificates` (lines 179-189). -/
structure Certificate where
  tokenId : Nat
  name : JSString
  program : JSString
  grade : JSString
  year : Nat
  timestamp : Nat
  owner : JSString
  tokenURI : JSString
  isOwner : Bool
  deriving DecidableEq, Repr

/-- The global `viewMode`: `'all'` or `'my'` (line 10). -/
inductive ViewMode where
  | all
  | my
  deriving DecidableEq, Repr

/-- A `<select>` element: the values of its options and its current value. -/
structure SelectEl where
  options : List JSString
  value : JSString
  deriving DecidableEq, Repr

/-- The three selectors a chip can stand for. -/
inductive FilterKind where
  | program
  | grade
  | year
  deriving DecidableEq, Repr

/-- The argument the chip's button passes to `removeFilter`. -/
def FilterKind.type : FilterKind → JSString
  | .program => js "program"
  | .grade => js "grade"
  | .year => js "year"

/-- One `<span class="filter-tag">` of `updateActiveFilters`: the selector it
names and the value it displays. -/
structure FilterTag where
  kind : FilterKind
  value : JSString
  deriving DecidableEq, Repr

/-- The sentinel option value `'All'`. -/
def ALL : JSString := js "All"

/-- The page: script globals and the DOM properties the script touches. -/
structure State where
  allCertificates : List Certificate
  filteredCertificates : List Certificate
  viewMode : ViewMode
  searchInput : JSString
  programFilter : SelectEl
  gradeFilter : SelectEl
  yearFilter : SelectEl
  clearSearchShown : Bool
  searchHintShown : Bool
  totalCerts : Nat
  totalPrograms : Nat
  myCerts : Nat
  filteredCount : Nat
  filterBadgeShown : Bool
  resetBtnShown : Bool
  activeFiltersShown : Bool
  filterTags : List FilterTag
  gridShown : Bool
  noResultsShown : Bool
  gridCards : List Certificate
  loadingSpinnerShown : Bool
  allCertsBtnActive : Bool
  myCertsBtnActive : Bool
  deriving DecidableEq, Repr

/-! ## Operations -/

/-- Function `updateStats` (lines 220-230). -/
def updateStats (s : State) : State :=
  let programs := newSet (s.allCertificates.map (·.program))
  let myCertificates := s.allCertificates.filter (·.isOwner)
  { s with
    totalCerts := s.allCertificates.length
    totalPrograms := programs.length
    myCerts := myCertificates.length }

/-- The array `programs` of `populateFilters` (line 240). -/
def programOptions (certs : List Certificate) : List JSString :=
  sortDefault id (newSet (certs.map (·.program)))

/-- The array `grades` of `populateFilters` (line 250). -/
def gradeOptions (certs : List Certificate) : List JSString :=
  sortDefault id (newSet (certs.map (·.grade)))

/-- The array `years` of `populateFilters` (line 260). -/
def yearOptions (certs : List Certificate) : List Nat :=
  (sortDefault numberToString (newSet (certs.map (·.year)))).reverse

/-- Function `populateFilters` (lines 233-268).  Assigning `innerHTML` leaves
each selector with the single option `'All'`, which a drop-down then shows as
its value; the options appended afterwards do not change the selection. -/
def populateFilters (s : State) : State :=
  { s with
    programFilter := ⟨ALL :: programOptions s.allCertificates, ALL⟩
    gradeFilter := ⟨ALL :: gradeOptions s.allCertificates, ALL⟩
    yearFilter :=
      ⟨ALL :: (yearOptions s.allCertificates).map numberToString, ALL⟩ }

/-- The constant `hasActiveFilters` of `updateActiveFilters` (lines 324-328). -/
def hasActiveFilters (s : State) : Bool :=
  truthy s.searchInput ||
    s.programFilter.value != ALL ||
    s.gradeFilter.value != ALL ||
    s.yearFilter.value != ALL

/-- The string `tags` of `updateActiveFilters` (lines 341-350), one entry per
appended chip. -/
def buildTags (s : State) : List FilterTag :=
  (if s.programFilter.value != ALL then [⟨.program, s.programFilter.value⟩] else []) ++
  (if s.gradeFilter.value != ALL then [⟨.grade, s.gradeFilter.value⟩] else []) ++
  (if s.yearFilter.value != ALL then [⟨.year, s.yearFilter.value⟩] else [])

/-- Function `updateActiveFilters` (lines 318-358). -/
def updateActiveFilters (s : State) : State :=
  if hasActiveFilters s then
    { s with
      filterBadgeShown := true
      resetBtnShown := true
      activeFiltersShown := true
      filterTags := buildTags s }
  else
    { s with
      filterBadgeShown := false
      resetBtnShown := false
      activeFiltersShown := false }

/-- Function `displayCertificates` (lines 361-375). -/
def displayCertificates (certificates : List Certificate) (s : State) : State :=
  if certificates.length = 0 then
    { s with gridShown := false, noResultsShown := true }
  else
    { s with gridShown := true, noResultsShown := false, gridCards := certificates }

/-- The local `filtered` of `applyFilters` when it is stored (lines 272-303). -/
def filterCertificates (toLowerCase : JSString → JSString) (s : State) :
    List Certificate :=
  let filtered := s.allCertificates
  let filtered :=
    if s.viewMode = .my then filtered.filter (fun cert => cert.isOwner) else filtered
  let searchTerm := toLowerCase s.searchInput
  let filtered :=
    if truthy searchTerm then
      filtered.filter (fun cert => includes (toLowerCase cert.name) searchTerm)
    else filtered
  let programFilter := s.programFilter.value
  let filtered :=
    if programFilter != ALL then
      filtered.filter (fun cert => cert.program == programFilter)
    else filtered
  let gradeFilter := s.gradeFilter.value
  let filtered :=
    if gradeFilter != ALL then
      filtered.filter (fun cert => cert.grade == gradeFilter)
    else filtered
  let yearFilter := s.yearFilter.value
  let filtered :=
    if yearFilter != ALL then
      filtered.filter (fun cert => numberToString cert.year == yearFilter)
    else filtered
  filtered

/-- Function `applyFilters` (lines 271-315). -/
def applyFilters (toLowerCase : JSString → JSString) (s : State) : State :=
  let filtered := filterCertificates toLowerCase s
  displayCertificates filtered
    (updateActiveFilters
      { s with filteredCertificates := filtered, filteredCount := filtered.length })

/-- Success path of `loadCertificates` (lines 160-210); `results` is what
`Promise.all` delivers, `none` for a token whose fetch failed. -/
def loadCertificates (toLowerCase : JSString → JSString)
    (results : List (Option Certificate)) (s : State) : State :=
  let s := { s with loadingSpinnerShown := true, gridShown := false, noResultsShown := false }
  let s := { s with allCertificates := results.reduceOption }
  let s := updateStats s
  let s := populateFilters s
  let s := applyFilters toLowerCase s
  { s with loadingSpinnerShown := false }

/-- Function `setViewMode` (lines 501-510). -/
def setViewMode (toLowerCase : JSString → JSString) (mode : ViewMode) (s : State) :
    State :=
  applyFilters toLowerCase
    { s with
      viewMode := mode
      allCertsBtnActive := decide (mode = .all)
      myCertsBtnActive := decide (mode = .my) }

/-- Function `clearSearch` (lines 519-524). -/
def clearSearch (toLowerCase : JSString → JSString) (s : State) : State :=
  applyFilters toLowerCase
    { s with searchInput := [], clearSearchShown := false, searchHintShown := false }

/-- Function `resetFilters` (lines 527-535). -/
def resetFilters (toLowerCase : JSString → JSString) (s : State) : State :=
  applyFilters toLowerCase
    { s with
      searchInput := []
      programFilter := { s.programFilter with value := ALL }
      gradeFilter := { s.gradeFilter with value := ALL }
      yearFilter := { s.yearFilter with value := ALL }
      clearSearchShown := false
      searchHintShown := false }

/-- Function `removeFilter` (lines 538-547). -/
def removeFilter (toLowerCase : JSString → JSString) (type : JSString) (s : State) :
    State :=
  let s :=
    if type = js "program" then
      { s with programFilter := { s.programFilter with value := ALL } }
    else if type = js "grade" then
      { s with gradeFilter := { s.gradeFilter with value := ALL } }
    else if type = js "year" then
      { s with yearFilter := { s.yearFilter with value := ALL } }
    else s
  applyFilters toLowerCase s

/-- The `input` listener of the search box (lines 51-66), run after the
browser has stored the typed `value`. -/
def searchInputListener (toLowerCase : JSString → JSString) (value : JSString)
    (s : State) : State :=
  applyFilters toLowerCase
    { s with
      searchInput := value
      clearSearchShown := truthy value
      searchHintShown := truthy value }

/-- The `change` listener of `programFilter` (line 69), run after the browser
has stored `value`, the value of the option the user chose. -/
def programFilterListener (toLowerCase : JSString → JSString) (value : JSString)
    (s : State) : State :=
  applyFilters toLowerCase { s with programFilter := { s.programFilter with value := value } }

/-- The `change` listener of `gradeFilter` (line 70), run after the browser has
stored `value`, the value of the option the user chose. -/
def gradeFilterListener (toLowerCase : JSString → JSString) (value : JSString)
    (s : State) : State :=
  applyFilters toLowerCase { s with gradeFilter := { s.gradeFilter with value := value } }

/-- The `change` listener of `yearFilter` (line 71), run after the browser has
stored `value`, the value of the option the user chose. -/
def yearFilterListener (toLowerCase : JSString → JSString) (value : JSString)
    (s : State) : State :=
  applyFilters toLowerCase { s with yearFilter := { s.yearFilter with value := value } }

/-- Assigning `value` on a `<select>` from a script: the option with that
value becomes the selected one; when no option has it, none is selected and
`value` reads back as the empty string. -/
def SelectEl.assign (sel : SelectEl) (v : JSString) : SelectEl :=
  if v ∈ sel.options then { sel with value := v } else { sel with value := [] }

/-- A table of `String.prototype.toLowerCase`: its values on the Greek texts
`"Α"`, `"Σ"`, `"ΑΣ"` and `"ΑΣΑ"` (a `Σ` that ends a word lower-cases to the
final form `ς`, any other to `σ`), and the ASCII lower-casing on every other
text, which is the built-in's value on ASCII text and on text without
capital letters. -/
def tableToLowerCase (s : JSString) : JSString :=
  if s = js "Α" then js "α"
  else if s = js "Σ" then js "σ"
  else if s = js "ΑΣ" then js "ας"
  else if s = js "ΑΣΑ" then js "ασα"
  else asciiToLowerCase s

/-! ## Claim-side definitions -/

/-- The conjunction of the predicates that the filter state `s` makes active,
as the specification words them: ownership in view mode `'my'`, the
case-folded name containing the case-folded search text when that text is not
empty, and equality with each selector that is not at `'All'` (for the year:
its decimal rendering is the selector's value). -/
def Satisfies (toLowerCase : JSString → JSString) (s : State) (cert : Certificate) :
    Prop :=
  (s.viewMode = .my → cert.isOwner = true) ∧
  (s.searchInput ≠ [] → toLowerCase s.searchInput <:+: toLowerCase cert.name) ∧
  (s.programFilter.value ≠ ALL → cert.program = s.programFilter.value) ∧
  (s.gradeFilter.value ≠ ALL → cert.grade = s.gradeFilter.value) ∧
  (s.yearFilter.value ≠ ALL → numberToString cert.year = s.yearFilter.value)

instance (toLowerCase : JSString → JSString) (s : State) (cert : Certificate) :
    Decidable (Satisfies toLowerCase s cert) := by
  unfold Satisfies; infer_instance

/-- The selector element a chip kind stands for. -/
def selector (s : State) : FilterKind → SelectEl
  | .program => s.programFilter
  | .grade => s.gradeFilter
  | .year => s.yearFilter

/-- The page `s` with another filter state: view mode, search text and the
three selectors. -/
def State.withFilterState (s : State) (mode : ViewMode) (q : JSString)
    (p g y : SelectEl) : State :=
  { s with
    viewMode := mode
    searchInput := q
    programFilter := p
    gradeFilter := g
    yearFilter := y }

/-- Two code units that are the same, or the same ASCII letter in upper and
lower case. -/
def sameLetter (u v : Nat) : Bool :=
  u == v || (decide (65 ≤ u) && decide (u ≤ 90) && v == u + 32)
    || (decide (65 ≤ v) && decide (v ≤ 90) && u == v + 32)

/-- Two texts of the same length that differ, position by position, only in
the case of ASCII letters. -/
def asciiCaseVariant : JSString → JSString → Bool
  | [], [] => true
  | u :: a, v :: b => sameLetter u v && asciiCaseVariant a b
  | _, _ => false

/-! ## Sample data (Scenario A of the specification) -/

/-- Record 1 of Scenario A. -/
def alice : Certificate :=
  ⟨1, js "Alice", js "CS", js "A", 2023, 1700000000, js "0xA1", js "ipfs://1", true⟩

/-- Record 2 of Scenario A. -/
def bob : Certificate :=
  ⟨2, js "Bob", js "EE", js "B", 2022, 1700000001, js "0xB2", js "ipfs://2", false⟩

/-- A page on which nothing has been loaded or selected yet. -/
def blankPage : State where
  allCertificates := []
  filteredCertificates := []
  viewMode := .all
  searchInput := []
  programFilter := ⟨[ALL], ALL⟩
  gradeFilter := ⟨[ALL], ALL⟩
  yearFilter := ⟨[ALL], ALL⟩
  clearSearchShown := false
  searchHintShown := false
  totalCerts := 0
  totalPrograms := 0
  myCerts := 0
  filteredCount := 0
  filterBadgeShown := false
  resetBtnShown := false
  activeFiltersShown := false
  filterTags := []
  gridShown := false
  noResultsShown := false
  gridCards := []
  loadingSpinnerShown := false
  allCertsBtnActive := true
  myCertsBtnActive := false

/-- The page after Scenario A's load. -/
def loaded : State :=
  loadCertificates asciiToLowerCase [some alice, some bob] blankPage

/-- A record named `"Alice Smith"`. -/
def aliceSmith : Certificate := { alice with name := js "Alice Smith" }

/-- A record named `"ΑΣΑ"`. -/
def alphaSigmaAlpha : Certificate := { alice with name := js "ΑΣΑ" }

/-! ## Auxiliary lemmas -/

theorem truthy_iff (x : JSString) : truthy x = true ↔ x ≠ [] := by
  cases x <;> simp [truthy]

theorem ite_filter {α : Type} (c : Prop) [Decidable c] (p : α → Bool) (l : List α) :
    (if c then l.filter p else l) = l.filter (fun x => decide (c → p x = true)) := by
  by_cases h : c <;> simp [h]

theorem search_clause (toLowerCase : JSString → JSString) (htl : toLowerCase [] = [])
    (q n : JSString) :
    (truthy (toLowerCase q) = true → includes (toLowerCase n) (toLowerCase q) = true)
      ↔ (q ≠ [] → toLowerCase q <:+: toLowerCase n) := by
  rw [truthy_iff]
  by_cases hq : q = []
  · simp [hq, htl]
  · by_cases hl : toLowerCase q = []
    · simp [hl, includes]
    · simp [hq, hl, includes]

theorem filterCertificates_eq (toLowerCase : JSString → JSString)
    (htl : toLowerCase [] = []) (s : State) :
    filterCertificates toLowerCase s
      = s.allCertificates.filter (fun cert => decide (Satisfies toLowerCase s cert)) := by
  unfold filterCertificates
  simp only [ite_filter]
  simp only [List.filter_filter]
  apply List.filter_congr
  intro cert _
  rw [Bool.eq_iff_iff]
  simp only [Bool.and_eq_true, decide_eq_true_eq, Satisfies, search_clause toLowerCase htl,
    bne_iff_ne, beq_iff_eq, ne_eq]
  tauto

theorem foldl_digitsAux (fuel n : Nat) (acc : JSString) (h : n < fuel) :
    (digitsAux fuel n acc).foldl (fun v d => 10 * v + (d - 48)) 0
      = acc.foldl (fun v d => 10 * v + (d - 48)) n := by
  induction fuel generalizing n acc with
  | zero => omega
  | succ f ih =>
    unfold digitsAux
    split_ifs with h10
    · simp
    · rw [ih (n / 10) _ (by omega)]
      simp only [List.foldl_cons]
      congr 1
      omega

theorem foldl_numberToString (n : Nat) :
    (numberToString n).foldl (fun v d => 10 * v + (d - 48)) 0 = n := by
  have h := foldl_digitsAux (n + 1) n [] (by omega)
  simpa [numberToString] using h

theorem numberToString_injective : Function.Injective numberToString := by
  intro a b hab
  have ha := foldl_numberToString a
  rw [hab, foldl_numberToString] at ha
  exact ha.symm

theorem numberToString_ne_ALL (n : Nat) : numberToString n ≠ ALL := by
  intro h
  have hn := foldl_numberToString n
  rw [h] at hn
  have h2 : n = 2360 := by rw [← hn]; decide
  subst h2
  revert h
  decide

/-! ### Frame of `applyFilters` -/

theorem applyFilters_filtered (toLowerCase : JSString → JSString) (s : State) :
    (applyFilters toLowerCase s).filteredCertificates = filterCertificates toLowerCase s := by
  simp only [applyFilters, displayCertificates, updateActiveFilters]
  split_ifs <;> rfl

theorem applyFilters_all (toLowerCase : JSString → JSString) (s : State) :
    (applyFilters toLowerCase s).allCertificates = s.allCertificates := by
  simp only [applyFilters, displayCertificates, updateActiveFilters]
  split_ifs <;> rfl

theorem applyFilters_viewMode (toLowerCase : JSString → JSString) (s : State) :
    (applyFilters toLowerCase s).viewMode = s.viewMode := by
  simp only [applyFilters, displayCertificates, updateActiveFilters]
  split_ifs <;> rfl

theorem applyFilters_searchInput (toLowerCase : JSString → JSString) (s : State) :
    (applyFilters toLowerCase s).searchInput = s.searchInput := by
  simp only [applyFilters, displayCertificates, updateActiveFilters]
  split_ifs <;> rfl

theorem applyFilters_programFilter (toLowerCase : JSString → JSString) (s : State) :
    (applyFilters toLowerCase s).programFilter = s.programFilter := by
  simp only [applyFilters, displayCertificates, updateActiveFilters]
  split_ifs <;> rfl

theorem applyFilters_gradeFilter (toLowerCase : JSString → JSString) (s : State) :
    (applyFilters toLowerCase s).gradeFilter = s.gradeFilter := by
  simp only [applyFilters, displayCertificates, updateActiveFilters]
  split_ifs <;> rfl

theorem applyFilters_yearFilter (toLowerCase : JSString → JSString) (s : State) :
    (applyFilters toLowerCase s).yearFilter = s.yearFilter := by
  simp only [applyFilters, displayCertificates, updateActiveFilters]
  split_ifs <;> rfl

/-! ## C1: what `applyFilters` stores -/

/-- C1: for every record list and filter state, the list `applyFilters` stores in
`filteredCertificates` is the record list restricted, in its original order,
to the records satisfying every active predicate (owner in view mode `'my'`,
case-folded name containing the case-folded non-empty search text, program,
grade and year equal to each selector that is not `'All'`); it is a
subsequence of the record list, which is left as it was; and when the year
selector holds the rendering of an integer, every kept record has that
year. -/
theorem applyFilters_spec (toLowerCase : JSString → JSString)
    (htl : toLowerCase [] = []) (s : State) :
    (applyFilters toLowerCase s).filteredCertificates
        = s.allCertificates.filter (fun cert => decide (Satisfies toLowerCase s cert))
      ∧ (applyFilters toLowerCase s).filteredCertificates.Sublist s.allCertificates
      ∧ (applyFilters toLowerCase s).allCertificates = s.allCertificates
      ∧ ∀ y : Nat, s.yearFilter.value = numberToString y →
          ∀ cert ∈ (applyFilters toLowerCase s).filteredCertificates, cert.year = y := by
  have h := filterCertificates_eq toLowerCase htl s
  rw [applyFilters_filtered, h]
  refine ⟨rfl, List.filter_sublist _, applyFilters_all _ _, ?_⟩
  intro y hy cert hc
  have hs : Satisfies toLowerCase s cert := by simpa using (List.mem_filter.mp hc).2
  have hne : s.yearFilter.value ≠ ALL := by rw [hy]; exact numberToString_ne_ALL y
  exact numberToString_injective ((hs.2.2.2.2 hne).trans hy)

/-- Witness for C1: on Scenario A's page with view mode `'my'`, search text
`"AL"` and year `2023`, exactly record 1 is kept. -/
theorem applyFilters_spec_witness :
    asciiToLowerCase [] = [] ∧
      (applyFilters asciiToLowerCase
          { loaded with
            viewMode := .my
            searchInput := js "AL"
            yearFilter := ⟨loaded.yearFilter.options, js "2023"⟩ }).filteredCertificates
        = [alice] :=
  ⟨by decide,
    ((applyFilters_spec asciiToLowerCase (by decide)
        { loaded with
          viewMode := .my
          searchInput := js "AL"
          yearFilter := ⟨loaded.yearFilter.options, js "2023"⟩ }).1).trans (by decide)⟩


/-! ## C2: what a load does to the filter state -/

/-- C2 fails as stated: a load with view mode `'my'` selected beforehand keeps
that view mode, and the loaded record of another holder is not shown. -/
theorem loadCertificates_counterexample :
    (loadCertificates asciiToLowerCase [some bob] { blankPage with viewMode := .my }).viewMode
        = .my
      ∧ (loadCertificates asciiToLowerCase [some bob]
          { blankPage with viewMode := .my }).allCertificates = [bob]
      ∧ (loadCertificates asciiToLowerCase [some bob]
          { blankPage with viewMode := .my }).filteredCertificates = []
      ∧ ¬ ((loadCertificates asciiToLowerCase [some bob]
              { blankPage with viewMode := .my }).viewMode = .all
            ∧ (loadCertificates asciiToLowerCase [some bob]
              { blankPage with viewMode := .my }).filteredCertificates = [bob]) := by
  decide

/-- C2 (amended): for every prior state, a load of the records `R` (the
fetched results that are not null) stores `R`, leaves the program, grade and
year selectors at `'All'`, keeps the view mode and the search text as they
were, and shows `R` restricted by that view mode and search text; when the
view mode was `'all'` and the search text empty, the filter state is the
default one and the whole of `R` is shown. -/
theorem loadCertificates_spec (toLowerCase : JSString → JSString)
    (htl : toLowerCase [] = []) (results : List (Option Certificate)) (s : State) :
    (loadCertificates toLowerCase results s).allCertificates = results.reduceOption
      ∧ (loadCertificates toLowerCase results s).programFilter.value = ALL
      ∧ (loadCertificates toLowerCase results s).gradeFilter.value = ALL
      ∧ (loadCertificates toLowerCase results s).yearFilter.value = ALL
      ∧ (loadCertificates toLowerCase results s).viewMode = s.viewMode
      ∧ (loadCertificates toLowerCase results s).searchInput = s.searchInput
      ∧ (loadCertificates toLowerCase results s).filteredCertificates
          = results.reduceOption.filter (fun cert =>
              decide ((s.viewMode = .my → cert.isOwner = true) ∧
                (s.searchInput ≠ [] → toLowerCase s.searchInput <:+: toLowerCase cert.name)))
      ∧ (s.viewMode = .all → s.searchInput = [] →
          (loadCertificates toLowerCase results s).viewMode = .all
            ∧ (loadCertificates toLowerCase results s).searchInput = []
            ∧ (loadCertificates toLowerCase results s).filteredCertificates
                = results.reduceOption) := by
  have hf : (loadCertificates toLowerCase results s).filteredCertificates
      = results.reduceOption.filter (fun cert =>
          decide ((s.viewMode = .my → cert.isOwner = true) ∧
            (s.searchInput ≠ [] → toLowerCase s.searchInput <:+: toLowerCase cert.name))) := by
    simp only [loadCertificates, applyFilters_filtered, filterCertificates_eq toLowerCase htl]
    apply List.filter_congr
    intro cert _
    simp [Satisfies, populateFilters, updateStats]
  refine ⟨?_, ?_, ?_, ?_, ?_, ?_, hf, ?_⟩
  · simp [loadCertificates, applyFilters_all, populateFilters, updateStats]
  · simp [loadCertificates, applyFilters_programFilter, populateFilters, updateStats]
  · simp [loadCertificates, applyFilters_gradeFilter, populateFilters, updateStats]
  · simp [loadCertificates, applyFilters_yearFilter, populateFilters, updateStats]
  · simp [loadCertificates, applyFilters_viewMode, populateFilters, updateStats]
  · simp [loadCertificates, applyFilters_searchInput, populateFilters, updateStats]
  · intro hv hq
    refine ⟨?_, ?_, ?_⟩
    · simp [loadCertificates, applyFilters_viewMode, populateFilters, updateStats, hv]
    · simp [loadCertificates, applyFilters_searchInput, populateFilters, updateStats, hq]
    · rw [hf]
      simp [hv, hq]

/-- Witness for C2: Scenario A's load on a blank page shows both records. -/
theorem loadCertificates_spec_witness :
    asciiToLowerCase [] = [] ∧ blankPage.viewMode = .all ∧ blankPage.searchInput = []
      ∧ (loadCertificates asciiToLowerCase [some alice, some bob] blankPage).filteredCertificates
          = [alice, bob] :=
  ⟨by decide, by decide, by decide,
    ((loadCertificates_spec asciiToLowerCase (by decide) [some alice, some bob]
        blankPage).2.2.2.2.2.2.2 (by decide) (by decide)).2.2.trans (by decide)⟩


/-! ### `new Set` and the default sort -/

theorem foldl_setAdd_spec {α : Type} [DecidableEq α] (xs : List α) :
    ∀ acc : List α, acc.Nodup →
      (xs.foldl setAdd acc).Nodup ∧ ∀ x, x ∈ xs.foldl setAdd acc ↔ x ∈ acc ∨ x ∈ xs := by
  induction xs with
  | nil => intro acc h; simp [h]
  | cons a l ih =>
    intro acc h
    have hn : (setAdd acc a).Nodup := by
      unfold setAdd
      split_ifs with ha
      · exact h
      · exact List.Nodup.append h (List.nodup_singleton a) (by simpa using ha)
    have hm : ∀ x, x ∈ setAdd acc a ↔ x ∈ acc ∨ x = a := by
      intro x
      unfold setAdd
      split_ifs with ha
      · constructor
        · exact Or.inl
        · rintro (hx | rfl)
          · exact hx
          · exact ha
      · simp
    obtain ⟨h1, h2⟩ := ih (setAdd acc a) hn
    refine ⟨h1, fun x => ?_⟩
    rw [List.foldl_cons, h2, hm, List.mem_cons, or_assoc]

theorem nodup_newSet {α : Type} [DecidableEq α] (xs : List α) : (newSet xs).Nodup :=
  (foldl_setAdd_spec xs [] List.nodup_nil).1

theorem mem_newSet {α : Type} [DecidableEq α] (xs : List α) (x : α) :
    x ∈ newSet xs ↔ x ∈ xs := by
  have h := (foldl_setAdd_spec xs [] List.nodup_nil).2 x
  simpa [newSet] using h

theorem length_newSet {α : Type} [DecidableEq α] (xs : List α) :
    (newSet xs).length = xs.toFinset.card := by
  rw [← List.toFinset_card_of_nodup (nodup_newSet xs)]
  congr 1
  ext x
  simp [mem_newSet]

theorem sortDefault_perm {α : Type} (toStr : α → JSString) (xs : List α) :
    (sortDefault toStr xs).Perm xs :=
  List.perm_insertionSort _ xs

theorem sortDefault_sorted {α : Type} (toStr : α → JSString) (xs : List α) :
    (sortDefault toStr xs).Sorted (fun a b => toStr a ≤ toStr b) := by
  haveI : IsTotal α (fun a b => toStr a ≤ toStr b) := ⟨fun a b => le_total (toStr a) (toStr b)⟩
  haveI : IsTrans α (fun a b => toStr a ≤ toStr b) := ⟨fun _ _ _ h1 h2 => le_trans h1 h2⟩
  exact List.sorted_insertionSort _ xs

theorem sortDefault_id_strict (xs : List JSString) (h : xs.Nodup) :
    (sortDefault id xs).Sorted (List.Lex (· < ·)) := by
  have hs : (sortDefault id xs).Sorted (· ≤ ·) := sortDefault_sorted id xs
  have hn : (sortDefault id xs).Nodup := (sortDefault_perm id xs).nodup_iff.mpr h
  exact hs.lt_of_le hn

/-- The year options hold each year of the records once, ordered downwards
by decimal rendering (code unit by code unit). -/
theorem yearOptions_facts (certs : List Certificate) :
    (yearOptions certs).Nodup
      ∧ (∀ y, y ∈ yearOptions certs ↔ ∃ cert ∈ certs, cert.year = y)
      ∧ (yearOptions certs).Sorted
          (fun a b => List.Lex (· < ·) (numberToString b) (numberToString a)) := by
  unfold yearOptions
  refine ⟨?_, ?_, ?_⟩
  · rw [List.nodup_reverse]
    exact (sortDefault_perm _ _).nodup_iff.mpr (nodup_newSet _)
  · intro y
    rw [List.mem_reverse, (sortDefault_perm _ _).mem_iff, mem_newSet]
    simp
  · rw [List.Sorted, List.pairwise_reverse]
    have hs := sortDefault_sorted numberToString (newSet (certs.map (·.year)))
    have hn : (sortDefault numberToString (newSet (certs.map (·.year)))).Nodup :=
      (sortDefault_perm _ _).nodup_iff.mpr (nodup_newSet _)
    have hp := List.Pairwise.and hs hn
    refine hp.imp ?_
    intro a b hab
    exact lt_of_le_of_ne hab.1 (fun h => hab.2 (numberToString_injective h))

/-! ## C3: the year options -/

/-- C3 fails on the code: for records of the years 999 and 1000 the array
`years` of `populateFilters` is `[999, 1000]`, ascending, because the default
sort compares the decimal renderings `"1000"` and `"999"`; the selector then
lists `All`, `999`, `1000`. -/
theorem yearOptions_ascending_at_999_1000 :
    yearOptions [{ alice with year := 999 }, { bob with year := 1000 }] = [999, 1000]
      ∧ ¬ (yearOptions [{ alice with year := 999 }, { bob with year := 1000 }]).Sorted (· > ·)
      ∧ (populateFilters
          { blankPage with
            allCertificates :=
              [{ alice with year := 999 }, { bob with year := 1000 }] }).yearFilter.options
          = [js "All", js "999", js "1000"] := by
  decide

/-! ## C4: the program and grade options -/

/-- C4: for every record list, the program options and the grade options that
`populateFilters` appends after `'All'` depend on the record list alone, hold
exactly the program (grade) values occurring in it, each once, and are in
strictly ascending lexicographic order of their code units. -/
theorem populateFilters_program_grade_options (s : State) :
    ((populateFilters s).programFilter.options = ALL :: programOptions s.allCertificates
        ∧ (programOptions s.allCertificates).Nodup
        ∧ (∀ v, v ∈ programOptions s.allCertificates ↔ ∃ cert ∈ s.allCertificates, cert.program = v)
        ∧ (programOptions s.allCertificates).Sorted (List.Lex (· < ·)))
      ∧ ((populateFilters s).gradeFilter.options = ALL :: gradeOptions s.allCertificates
        ∧ (gradeOptions s.allCertificates).Nodup
        ∧ (∀ v, v ∈ gradeOptions s.allCertificates ↔ ∃ cert ∈ s.allCertificates, cert.grade = v)
        ∧ (gradeOptions s.allCertificates).Sorted (List.Lex (· < ·))) := by
  refine ⟨⟨rfl, ?_, ?_, ?_⟩, ⟨rfl, ?_, ?_, ?_⟩⟩
  · exact (sortDefault_perm _ _).nodup_iff.mpr (nodup_newSet _)
  · intro v
    rw [programOptions, (sortDefault_perm _ _).mem_iff, mem_newSet]
    simp
  · exact sortDefault_id_strict _ (nodup_newSet _)
  · exact (sortDefault_perm _ _).nodup_iff.mpr (nodup_newSet _)
  · intro v
    rw [gradeOptions, (sortDefault_perm _ _).mem_iff, mem_newSet]
    simp
  · exact sortDefault_id_strict _ (nodup_newSet _)


/-! ## C5: the statistics -/

/-- C5: for every state, `updateStats` writes the number of records, the number
of distinct program values among them and the number of records with
`isOwner` true; changing the view mode, the search text or the three
selectors beforehand changes none of the three; on Scenario A the figures
are 2, 2 and 1. -/
theorem updateStats_spec (s : State) :
    (updateStats s).totalCerts = s.allCertificates.length
      ∧ (updateStats s).totalPrograms = (s.allCertificates.map (·.program)).toFinset.card
      ∧ (updateStats s).myCerts = s.allCertificates.countP (fun cert => cert.isOwner)
      ∧ (∀ (mode : ViewMode) (q : JSString) (p g y : SelectEl),
          (updateStats (s.withFilterState mode q p g y)).totalCerts = (updateStats s).totalCerts
            ∧ (updateStats (s.withFilterState mode q p g y)).totalPrograms
                = (updateStats s).totalPrograms
            ∧ (updateStats (s.withFilterState mode q p g y)).myCerts = (updateStats s).myCerts)
      ∧ (loaded.totalCerts = 2 ∧ loaded.totalPrograms = 2 ∧ loaded.myCerts = 1) := by
  refine ⟨rfl, length_newSet _, ?_, fun _ _ _ _ _ => ⟨rfl, rfl, rfl⟩, by decide⟩
  simp [updateStats, List.countP_eq_length_filter]

/-! ## C6: the "any filter active" flag -/

/-- C6: for every state, the flag `hasActiveFilters` is true exactly when the
search text is not empty or one of the program, grade and year selectors is
not `'All'`; it is the same for every view mode; and it is what
`updateActiveFilters` shows through the badge, the reset button and the chip
panel. -/
theorem hasActiveFilters_spec (s : State) :
    (hasActiveFilters s = true ↔
        s.searchInput ≠ [] ∨ s.programFilter.value ≠ ALL ∨ s.gradeFilter.value ≠ ALL
          ∨ s.yearFilter.value ≠ ALL)
      ∧ (∀ mode : ViewMode, hasActiveFilters { s with viewMode := mode } = hasActiveFilters s)
      ∧ (updateActiveFilters s).filterBadgeShown = hasActiveFilters s
      ∧ (updateActiveFilters s).resetBtnShown = hasActiveFilters s
      ∧ (updateActiveFilters s).activeFiltersShown = hasActiveFilters s := by
  refine ⟨?_, fun _ => rfl, ?_, ?_, ?_⟩
  · simp only [hasActiveFilters, Bool.or_eq_true, truthy_iff, bne_iff_ne, ne_eq, or_assoc]
  all_goals
    unfold updateActiveFilters
    cases h : hasActiveFilters s <;> simp

/-! ## C7: the filter chips -/

/-- C7 fails as stated: with the search text `"bo"` and the selectors at
`'All'` a filter is active and the chip panel is shown, yet no chip is built
for the search text; after the program selector is set to `"EE"` and its
chip removed, the hidden chip list still holds the program chip; and
Scenario C's year `1999` is no option of the year selector, so assigning it
leaves the selector without a value and the year chip shows the empty
string, not `1999`. -/
theorem updateActiveFilters_counterexample :
    ((searchInputListener asciiToLowerCase (js "bo") loaded).searchInput = js "bo"
        ∧ (searchInputListener asciiToLowerCase (js "bo") loaded).activeFiltersShown = true
        ∧ (searchInputListener asciiToLowerCase (js "bo") loaded).filterTags = [])
      ∧ ((removeFilter asciiToLowerCase (js "program")
            (programFilterListener asciiToLowerCase (js "EE") loaded)).programFilter.value = ALL
        ∧ (removeFilter asciiToLowerCase (js "program")
            (programFilterListener asciiToLowerCase (js "EE") loaded)).activeFiltersShown = false
        ∧ (removeFilter asciiToLowerCase (js "program")
            (programFilterListener asciiToLowerCase (js "EE") loaded)).filterTags
            = [⟨.program, js "EE"⟩])
      ∧ (loaded.yearFilter.options = [js "All", js "2023", js "2022"]
        ∧ (loaded.yearFilter.assign (js "1999")).value = []
        ∧ (applyFilters asciiToLowerCase
            { loaded with
              yearFilter := loaded.yearFilter.assign (js "1999") }).filteredCertificates = []
        ∧ (applyFilters asciiToLowerCase
            { loaded with
              yearFilter := loaded.yearFilter.assign (js "1999") }).filterTags
            = [⟨.year, []⟩]) := by
  decide

theorem mem_buildTags (s : State) (kind : FilterKind) (v : JSString) :
    (⟨kind, v⟩ : FilterTag) ∈ buildTags s ↔ (selector s kind).value = v ∧ v ≠ ALL := by
  unfold buildTags
  cases kind <;>
    by_cases hp : s.programFilter.value = ALL <;>
    by_cases hg : s.gradeFilter.value = ALL <;>
    by_cases hy : s.yearFilter.value = ALL <;>
    simp [selector, hp, hg, hy] <;>
    (try (constructor <;> (try rintro rfl) <;> simp_all)) <;>
    (try (intro h; exact h.symm))

theorem nodup_buildTags (s : State) : (buildTags s).Nodup := by
  unfold buildTags
  split_ifs <;> simp

/-- C7 (amended): for every state in which a filter is active, the chip panel
is shown and the chip list built by `updateActiveFilters` holds, once each,
exactly the pairs of a selector (program, grade, year) that is not `'All'`
and its current value, whether or not any visible record has that value;
the search text gets no chip.  When no filter is active the chip panel is
hidden. -/
theorem updateActiveFilters_tags (s : State) :
    (hasActiveFilters s = true →
        (updateActiveFilters s).activeFiltersShown = true
          ∧ (updateActiveFilters s).filterTags.Nodup
          ∧ ∀ (kind : FilterKind) (v : JSString),
              (⟨kind, v⟩ : FilterTag) ∈ (updateActiveFilters s).filterTags
                ↔ (selector s kind).value = v ∧ v ≠ ALL)
      ∧ (hasActiveFilters s = false → (updateActiveFilters s).activeFiltersShown = false) := by
  constructor
  · intro h
    unfold updateActiveFilters
    rw [if_pos h]
    exact ⟨rfl, nodup_buildTags s, mem_buildTags s⟩
  · intro h
    simp [updateActiveFilters, h]

/-- Witness for C7: on Scenario A's page in view mode `'my'`, choosing the year
option `2022`, which no record of the viewer has, leaves nothing visible and
the chip list is the one year chip `2022`; on the freshly loaded page no
filter is active and the chip panel is hidden. -/
theorem updateActiveFilters_tags_witness :
    js "2022" ∈ (setViewMode asciiToLowerCase .my loaded).yearFilter.options
      ∧ (yearFilterListener asciiToLowerCase (js "2022")
          (setViewMode asciiToLowerCase .my loaded)).filteredCertificates = []
      ∧ (yearFilterListener asciiToLowerCase (js "2022")
          (setViewMode asciiToLowerCase .my loaded)).filterTags = [⟨.year, js "2022"⟩]
      ∧ hasActiveFilters
          { setViewMode asciiToLowerCase .my loaded with
            yearFilter := ⟨loaded.yearFilter.options, js "2022"⟩ } = true
      ∧ (⟨.year, js "2022"⟩ : FilterTag)
          ∈ (updateActiveFilters
              { setViewMode asciiToLowerCase .my loaded with
                yearFilter := ⟨loaded.yearFilter.options, js "2022"⟩ }).filterTags
      ∧ hasActiveFilters loaded = false
      ∧ (updateActiveFilters loaded).activeFiltersShown = false :=
  ⟨by decide, by decide, by decide, by decide,
    (((updateActiveFilters_tags
        { setViewMode asciiToLowerCase .my loaded with
          yearFilter := ⟨loaded.yearFilter.options, js "2022"⟩ }).1
          (by decide)).2.2 .year (js "2022")).mpr (by decide),
    by decide, (updateActiveFilters_tags loaded).2 (by decide)⟩

/-! ### Recomputing twice -/

theorem filterCertificates_congr (toLowerCase : JSString → JSString) (s t : State)
    (h1 : t.allCertificates = s.allCertificates) (h2 : t.viewMode = s.viewMode)
    (h3 : t.searchInput = s.searchInput) (h4 : t.programFilter.value = s.programFilter.value)
    (h5 : t.gradeFilter.value = s.gradeFilter.value)
    (h6 : t.yearFilter.value = s.yearFilter.value) :
    filterCertificates toLowerCase t = filterCertificates toLowerCase s := by
  simp only [filterCertificates, h1, h2, h3, h4, h5, h6]

theorem applyFilters_idem (toLowerCase : JSString → JSString) (s : State) :
    applyFilters toLowerCase (applyFilters toLowerCase s) = applyFilters toLowerCase s := by
  have hf : filterCertificates toLowerCase (applyFilters toLowerCase s)
      = filterCertificates toLowerCase s :=
    filterCertificates_congr toLowerCase s _ (applyFilters_all _ _) (applyFilters_viewMode _ _)
      (applyFilters_searchInput _ _) (by rw [applyFilters_programFilter])
      (by rw [applyFilters_gradeFilter]) (by rw [applyFilters_yearFilter])
  conv_lhs => rw [applyFilters]
  simp only [hf]
  simp only [applyFilters, displayCertificates, updateActiveFilters, hasActiveFilters, buildTags]
  split_ifs <;> simp_all

theorem resetFilters_fixed (s : State) (h1 : s.searchInput = [])
    (h2 : s.programFilter.value = ALL) (h3 : s.gradeFilter.value = ALL)
    (h4 : s.yearFilter.value = ALL) (h5 : s.clearSearchShown = false)
    (h6 : s.searchHintShown = false) :
    { s with
      searchInput := []
      programFilter := { s.programFilter with value := ALL }
      gradeFilter := { s.gradeFilter with value := ALL }
      yearFilter := { s.yearFilter with value := ALL }
      clearSearchShown := false
      searchHintShown := false } = s := by
  obtain ⟨_, _, _, _, ⟨_, _⟩, ⟨_, _⟩, ⟨_, _⟩, _, _, _, _, _, _, _, _, _, _, _, _, _, _, _, _⟩ := s
  simp_all

theorem applyFilters_clearSearchShown (toLowerCase : JSString → JSString) (s : State) :
    (applyFilters toLowerCase s).clearSearchShown = s.clearSearchShown := by
  simp only [applyFilters, displayCertificates, updateActiveFilters]
  split_ifs <;> rfl

theorem applyFilters_searchHintShown (toLowerCase : JSString → JSString) (s : State) :
    (applyFilters toLowerCase s).searchHintShown = s.searchHintShown := by
  simp only [applyFilters, displayCertificates, updateActiveFilters]
  split_ifs <;> rfl

/-! ## C8: `resetFilters` -/

/-- C8: for every state, `resetFilters` empties the search text and puts the
program, grade and year selectors at `'All'`, leaves the view mode and the
record list as they were, and is idempotent: running it a second time
gives the same page, visible records included. -/
theorem resetFilters_spec (toLowerCase : JSString → JSString) (s : State) :
    (resetFilters toLowerCase s).searchInput = []
      ∧ (resetFilters toLowerCase s).programFilter.value = ALL
      ∧ (resetFilters toLowerCase s).gradeFilter.value = ALL
      ∧ (resetFilters toLowerCase s).yearFilter.value = ALL
      ∧ (resetFilters toLowerCase s).viewMode = s.viewMode
      ∧ (resetFilters toLowerCase s).allCertificates = s.allCertificates
      ∧ resetFilters toLowerCase (resetFilters toLowerCase s) = resetFilters toLowerCase s
      ∧ (resetFilters toLowerCase (resetFilters toLowerCase s)).filteredCertificates
          = (resetFilters toLowerCase s).filteredCertificates := by
  have hi : resetFilters toLowerCase (resetFilters toLowerCase s)
      = resetFilters toLowerCase s := by
    conv_lhs => rw [resetFilters]
    rw [resetFilters_fixed (resetFilters toLowerCase s)
      (by rw [resetFilters, applyFilters_searchInput])
      (by rw [resetFilters, applyFilters_programFilter])
      (by rw [resetFilters, applyFilters_gradeFilter])
      (by rw [resetFilters, applyFilters_yearFilter])
      (by rw [resetFilters, applyFilters_clearSearchShown])
      (by rw [resetFilters, applyFilters_searchHintShown])]
    rw [resetFilters, applyFilters_idem]
  refine ⟨?_, ?_, ?_, ?_, ?_, ?_, hi, by rw [hi]⟩
  · rw [resetFilters, applyFilters_searchInput]
  · rw [resetFilters, applyFilters_programFilter]
  · rw [resetFilters, applyFilters_gradeFilter]
  · rw [resetFilters, applyFilters_yearFilter]
  · rw [resetFilters, applyFilters_viewMode]
  · rw [resetFilters, applyFilters_all]


/-! ## C9: one more predicate never shows more -/

theorem filterCertificates_sublist_of_imp (toLowerCase : JSString → JSString) (s t : State)
    (h1 : t.allCertificates = s.allCertificates) (h3 : t.searchInput = s.searchInput)
    (h2 : t.viewMode = s.viewMode ∨ s.viewMode = .all)
    (h4 : t.programFilter.value = s.programFilter.value ∨ s.programFilter.value = ALL)
    (h5 : t.gradeFilter.value = s.gradeFilter.value ∨ s.gradeFilter.value = ALL)
    (h6 : t.yearFilter.value = s.yearFilter.value ∨ s.yearFilter.value = ALL) :
    (filterCertificates toLowerCase t).Sublist (filterCertificates toLowerCase s) := by
  unfold filterCertificates
  simp only [ite_filter]
  simp only [List.filter_filter, h1, h3]
  apply List.monotone_filter_right
  intro cert
  simp only [Bool.le_iff_imp, Bool.and_eq_true, decide_eq_true_eq, bne_iff_ne, beq_iff_eq, ne_eq]
  rintro ⟨hy, hg, hp, hq, hv⟩
  refine ⟨?_, ?_, ?_, hq, ?_⟩
  · rcases h6 with h | h
    · rw [← h]; exact hy
    · intro hn; exact absurd h hn
  · rcases h5 with h | h
    · rw [← h]; exact hg
    · intro hn; exact absurd h hn
  · rcases h4 with h | h
    · rw [← h]; exact hp
    · intro hn; exact absurd h hn
  · rcases h2 with h | h
    · rw [← h]; exact hv
    · intro hn; rw [h] at hn; cases hn

/-- C9: for every state, switching the view mode to `'my'`, or moving the
program, grade or year selector from `'All'` to any value, shows a sublist of
the records that a recompute of the state shows, hence at most as many. -/
theorem one_more_predicate_sublist (toLowerCase : JSString → JSString) (s : State) :
    ((setViewMode toLowerCase .my s).filteredCertificates.Sublist
          (applyFilters toLowerCase s).filteredCertificates
        ∧ (setViewMode toLowerCase .my s).filteredCertificates.length
            ≤ (applyFilters toLowerCase s).filteredCertificates.length)
      ∧ (∀ v : JSString, s.programFilter.value = ALL →
          (programFilterListener toLowerCase v s).filteredCertificates.Sublist
              (applyFilters toLowerCase s).filteredCertificates
            ∧ (programFilterListener toLowerCase v s).filteredCertificates.length
                ≤ (applyFilters toLowerCase s).filteredCertificates.length)
      ∧ (∀ v : JSString, s.gradeFilter.value = ALL →
          (gradeFilterListener toLowerCase v s).filteredCertificates.Sublist
              (applyFilters toLowerCase s).filteredCertificates
            ∧ (gradeFilterListener toLowerCase v s).filteredCertificates.length
                ≤ (applyFilters toLowerCase s).filteredCertificates.length)
      ∧ (∀ v : JSString, s.yearFilter.value = ALL →
          (yearFilterListener toLowerCase v s).filteredCertificates.Sublist
              (applyFilters toLowerCase s).filteredCertificates
            ∧ (yearFilterListener toLowerCase v s).filteredCertificates.length
                ≤ (applyFilters toLowerCase s).filteredCertificates.length) := by
  have hv : (setViewMode toLowerCase .my s).filteredCertificates.Sublist
      (applyFilters toLowerCase s).filteredCertificates := by
    rw [setViewMode, applyFilters_filtered, applyFilters_filtered]
    refine filterCertificates_sublist_of_imp toLowerCase s _ rfl rfl ?_ (Or.inl rfl)
      (Or.inl rfl) (Or.inl rfl)
    cases h : s.viewMode
    · exact Or.inr rfl
    · exact Or.inl rfl
  have hp : ∀ v : JSString, s.programFilter.value = ALL →
      (programFilterListener toLowerCase v s).filteredCertificates.Sublist
        (applyFilters toLowerCase s).filteredCertificates := by
    intro v h
    rw [programFilterListener, applyFilters_filtered, applyFilters_filtered]
    exact filterCertificates_sublist_of_imp toLowerCase s _ rfl rfl (Or.inl rfl) (Or.inr h)
      (Or.inl rfl) (Or.inl rfl)
  have hg : ∀ v : JSString, s.gradeFilter.value = ALL →
      (gradeFilterListener toLowerCase v s).filteredCertificates.Sublist
        (applyFilters toLowerCase s).filteredCertificates := by
    intro v h
    rw [gradeFilterListener, applyFilters_filtered, applyFilters_filtered]
    exact filterCertificates_sublist_of_imp toLowerCase s _ rfl rfl (Or.inl rfl) (Or.inl rfl)
      (Or.inr h) (Or.inl rfl)
  have hy : ∀ v : JSString, s.yearFilter.value = ALL →
      (yearFilterListener toLowerCase v s).filteredCertificates.Sublist
        (applyFilters toLowerCase s).filteredCertificates := by
    intro v h
    rw [yearFilterListener, applyFilters_filtered, applyFilters_filtered]
    exact filterCertificates_sublist_of_imp toLowerCase s _ rfl rfl (Or.inl rfl) (Or.inl rfl)
      (Or.inl rfl) (Or.inr h)
  exact ⟨⟨hv, hv.length_le⟩, fun v h => ⟨hp v h, (hp v h).length_le⟩,
    fun v h => ⟨hg v h, (hg v h).length_le⟩, fun v h => ⟨hy v h, (hy v h).length_le⟩⟩

/-- Witness for C9: on Scenario A's page, choosing the program `"EE"` leaves
one of the two records visible. -/
theorem one_more_predicate_sublist_witness :
    loaded.programFilter.value = ALL
      ∧ (programFilterListener asciiToLowerCase (js "EE") loaded).filteredCertificates = [bob]
      ∧ (applyFilters asciiToLowerCase loaded).filteredCertificates = [alice, bob]
      ∧ (programFilterListener asciiToLowerCase (js "EE") loaded).filteredCertificates.length
          ≤ (applyFilters asciiToLowerCase loaded).filteredCertificates.length :=
  ⟨by decide, by decide, by decide,
    ((one_more_predicate_sublist asciiToLowerCase loaded).2.1 (js "EE") (by decide)).2⟩


/-! ## C10: `removeFilter` -/

theorem applyFilters_activeFiltersShown (toLowerCase : JSString → JSString) (s : State) :
    (applyFilters toLowerCase s).activeFiltersShown = hasActiveFilters s := by
  simp only [applyFilters, displayCertificates, updateActiveFilters, hasActiveFilters]
  split_ifs <;> simp_all

theorem applyFilters_filterTags (toLowerCase : JSString → JSString) (s : State) :
    (applyFilters toLowerCase s).filterTags
      = if hasActiveFilters s then buildTags s else s.filterTags := by
  simp only [applyFilters, displayCertificates, updateActiveFilters, hasActiveFilters, buildTags]
  split_ifs <;> simp_all

theorem hasActiveFilters_congr (s t : State) (h3 : t.searchInput = s.searchInput)
    (h4 : t.programFilter.value = s.programFilter.value)
    (h5 : t.gradeFilter.value = s.gradeFilter.value)
    (h6 : t.yearFilter.value = s.yearFilter.value) :
    hasActiveFilters t = hasActiveFilters s := by
  simp only [hasActiveFilters, h3, h4, h5, h6]

theorem buildTags_congr (s t : State)
    (h4 : t.programFilter.value = s.programFilter.value)
    (h5 : t.gradeFilter.value = s.gradeFilter.value)
    (h6 : t.yearFilter.value = s.yearFilter.value) :
    buildTags t = buildTags s := by
  simp only [buildTags, h4, h5, h6]

/-- C10: for every state, `removeFilter` called with `'program'`, `'grade'` or
`'year'` puts that selector at `'All'` and leaves the other two selectors,
the search text, the view mode and the record list as they were.  So, on a
page as a recompute leaves it whose program selector is `'All'`, choosing
any program and then removing that filter gives back the view mode, the
search text, the three selectors, the record list, the visible records and
the shown chips of the page before the choice. -/
theorem removeFilter_spec (toLowerCase : JSString → JSString) (s : State) :
    ((removeFilter toLowerCase (js "program") s).programFilter
          = { s.programFilter with value := ALL }
        ∧ (removeFilter toLowerCase (js "program") s).gradeFilter = s.gradeFilter
        ∧ (removeFilter toLowerCase (js "program") s).yearFilter = s.yearFilter
        ∧ (removeFilter toLowerCase (js "program") s).searchInput = s.searchInput
        ∧ (removeFilter toLowerCase (js "program") s).viewMode = s.viewMode
        ∧ (removeFilter toLowerCase (js "program") s).allCertificates = s.allCertificates)
      ∧ ((removeFilter toLowerCase (js "grade") s).gradeFilter
          = { s.gradeFilter with value := ALL }
        ∧ (removeFilter toLowerCase (js "grade") s).programFilter = s.programFilter
        ∧ (removeFilter toLowerCase (js "grade") s).yearFilter = s.yearFilter
        ∧ (removeFilter toLowerCase (js "grade") s).searchInput = s.searchInput
        ∧ (removeFilter toLowerCase (js "grade") s).viewMode = s.viewMode
        ∧ (removeFilter toLowerCase (js "grade") s).allCertificates = s.allCertificates)
      ∧ ((removeFilter toLowerCase (js "year") s).yearFilter
          = { s.yearFilter with value := ALL }
        ∧ (removeFilter toLowerCase (js "year") s).programFilter = s.programFilter
        ∧ (removeFilter toLowerCase (js "year") s).gradeFilter = s.gradeFilter
        ∧ (removeFilter toLowerCase (js "year") s).searchInput = s.searchInput
        ∧ (removeFilter toLowerCase (js "year") s).viewMode = s.viewMode
        ∧ (removeFilter toLowerCase (js "year") s).allCertificates = s.allCertificates)
      ∧ (∀ v : JSString, applyFilters toLowerCase s = s → s.programFilter.value = ALL →
          (removeFilter toLowerCase (js "program")
              (programFilterListener toLowerCase v s)).viewMode = s.viewMode
            ∧ (removeFilter toLowerCase (js "program")
              (programFilterListener toLowerCase v s)).searchInput = s.searchInput
            ∧ (removeFilter toLowerCase (js "program")
              (programFilterListener toLowerCase v s)).programFilter = s.programFilter
            ∧ (removeFilter toLowerCase (js "program")
              (programFilterListener toLowerCase v s)).gradeFilter = s.gradeFilter
            ∧ (removeFilter toLowerCase (js "program")
              (programFilterListener toLowerCase v s)).yearFilter = s.yearFilter
            ∧ (removeFilter toLowerCase (js "program")
              (programFilterListener toLowerCase v s)).allCertificates = s.allCertificates
            ∧ (removeFilter toLowerCase (js "program")
              (programFilterListener toLowerCase v s)).filteredCertificates
                = s.filteredCertificates
            ∧ (removeFilter toLowerCase (js "program")
              (programFilterListener toLowerCase v s)).activeFiltersShown
                = s.activeFiltersShown
            ∧ (s.activeFiltersShown = true →
                (removeFilter toLowerCase (js "program")
                  (programFilterListener toLowerCase v s)).filterTags = s.filterTags)) := by
  have e1 : js "grade" ≠ js "program" := by decide
  have e2 : js "year" ≠ js "program" := by decide
  have e3 : js "year" ≠ js "grade" := by decide
  refine ⟨?_, ?_, ?_, ?_⟩
  · simp only [removeFilter, if_true]
    simp only [applyFilters_programFilter, applyFilters_gradeFilter, applyFilters_yearFilter,
      applyFilters_searchInput, applyFilters_viewMode, applyFilters_all, and_self]
  · simp only [removeFilter, if_neg e1, if_true]
    simp only [applyFilters_programFilter, applyFilters_gradeFilter, applyFilters_yearFilter,
      applyFilters_searchInput, applyFilters_viewMode, applyFilters_all, and_self]
  · simp only [removeFilter, if_neg e2, if_neg e3, if_true]
    simp only [applyFilters_programFilter, applyFilters_gradeFilter, applyFilters_yearFilter,
      applyFilters_searchInput, applyFilters_viewMode, applyFilters_all, and_self]
  · intro v hs hp
    have hu : removeFilter toLowerCase (js "program") (programFilterListener toLowerCase v s)
        = applyFilters toLowerCase
            { programFilterListener toLowerCase v s with
              programFilter :=
                { (programFilterListener toLowerCase v s).programFilter with value := ALL } } := by
      simp only [removeFilter, if_true]
    have hfc : filterCertificates toLowerCase s = s.filteredCertificates := by
      rw [← applyFilters_filtered, hs]
    have hshown : hasActiveFilters s = s.activeFiltersShown := by
      rw [← applyFilters_activeFiltersShown toLowerCase s, hs]
    have htags : (if hasActiveFilters s then buildTags s else s.filterTags) = s.filterTags := by
      rw [← applyFilters_filterTags toLowerCase s, hs]
    have hq : (programFilterListener toLowerCase v s).searchInput = s.searchInput :=
      applyFilters_searchInput _ _
    have hg : (programFilterListener toLowerCase v s).gradeFilter = s.gradeFilter :=
      applyFilters_gradeFilter _ _
    have hy : (programFilterListener toLowerCase v s).yearFilter = s.yearFilter :=
      applyFilters_yearFilter _ _
    have hpf : (programFilterListener toLowerCase v s).programFilter
        = { s.programFilter with value := v } :=
      applyFilters_programFilter _ _
    have hva : (programFilterListener toLowerCase v s).viewMode = s.viewMode :=
      applyFilters_viewMode _ _
    have hal : (programFilterListener toLowerCase v s).allCertificates = s.allCertificates :=
      applyFilters_all _ _
    have hfc2 : filterCertificates toLowerCase
        { programFilterListener toLowerCase v s with
          programFilter :=
            { (programFilterListener toLowerCase v s).programFilter with value := ALL } }
        = filterCertificates toLowerCase s :=
      filterCertificates_congr toLowerCase s _ hal hva hq hp.symm
        (congrArg SelectEl.value hg) (congrArg SelectEl.value hy)
    have hha : hasActiveFilters
        { programFilterListener toLowerCase v s with
          programFilter :=
            { (programFilterListener toLowerCase v s).programFilter with value := ALL } }
        = hasActiveFilters s :=
      hasActiveFilters_congr s _ hq hp.symm (congrArg SelectEl.value hg)
        (congrArg SelectEl.value hy)
    have hbt : buildTags
        { programFilterListener toLowerCase v s with
          programFilter :=
            { (programFilterListener toLowerCase v s).programFilter with value := ALL } }
        = buildTags s :=
      buildTags_congr s _ hp.symm (congrArg SelectEl.value hg) (congrArg SelectEl.value hy)
    rw [hu]
    refine ⟨?_, ?_, ?_, ?_, ?_, ?_, ?_, ?_, ?_⟩
    · rw [applyFilters_viewMode]; exact hva
    · rw [applyFilters_searchInput]; exact hq
    · rw [applyFilters_programFilter]
      show SelectEl.mk (programFilterListener toLowerCase v s).programFilter.options ALL
        = s.programFilter
      rw [hpf, ← hp]
    · rw [applyFilters_gradeFilter]; exact hg
    · rw [applyFilters_yearFilter]; exact hy
    · rw [applyFilters_all]; exact hal
    · rw [applyFilters_filtered, hfc2, hfc]
    · rw [applyFilters_activeFiltersShown, hha, hshown]
    · intro hsh
      rw [← hshown] at hsh
      rw [applyFilters_filterTags, hha, if_pos hsh, hbt, ← htags, if_pos hsh]

/-- Witness for C10 (Scenario D): on Scenario A's page, choosing the program
`"EE"` and removing that filter shows both records again, with the chip
panel hidden. -/
theorem removeFilter_spec_witness :
    applyFilters asciiToLowerCase loaded = loaded ∧ loaded.programFilter.value = ALL
      ∧ (programFilterListener asciiToLowerCase (js "EE") loaded).filteredCertificates = [bob]
      ∧ (removeFilter asciiToLowerCase (js "program")
          (programFilterListener asciiToLowerCase (js "EE") loaded)).filteredCertificates
          = [alice, bob]
      ∧ (removeFilter asciiToLowerCase (js "program")
          (programFilterListener asciiToLowerCase (js "EE") loaded)).activeFiltersShown
          = false :=
  ⟨by decide, by decide, by decide,
    ((removeFilter_spec asciiToLowerCase loaded).2.2.2 (js "EE") (by decide)
      (by decide)).2.2.2.2.2.2.1.trans (by decide),
    ((removeFilter_spec asciiToLowerCase loaded).2.2.2 (js "EE") (by decide)
      (by decide)).2.2.2.2.2.2.2.1.trans (by decide)⟩

/-! ## C11: the search and letter case -/

theorem asciiToLowerCase_eq_of_variant (a : JSString) :
    ∀ b : JSString, asciiCaseVariant a b = true → asciiToLowerCase a = asciiToLowerCase b := by
  induction a with
  | nil =>
    intro b h
    cases b with
    | nil => rfl
    | cons v b => simp [asciiCaseVariant] at h
  | cons u a ih =>
    intro b h
    cases b with
    | nil => simp [asciiCaseVariant] at h
    | cons v b =>
      simp only [asciiCaseVariant, Bool.and_eq_true] at h
      have hab := ih b h.2
      have huv : (if 65 ≤ u ∧ u ≤ 90 then u + 32 else u)
          = (if 65 ≤ v ∧ v ≤ 90 then v + 32 else v) := by
        have h1 := h.1
        simp only [sameLetter, Bool.or_eq_true, Bool.and_eq_true, beq_iff_eq,
          decide_eq_true_eq] at h1
        split_ifs <;> omega
      unfold asciiToLowerCase at hab ⊢
      simp only [List.map_cons, huv, hab]

theorem ascii_of_variant (a : JSString) :
    ∀ b : JSString, asciiCaseVariant a b = true → (∀ u ∈ a, u < 128) → ∀ v ∈ b, v < 128 := by
  induction a with
  | nil =>
    intro b h _ v hv
    cases b with
    | nil => simp at hv
    | cons w b => simp [asciiCaseVariant] at h
  | cons u a ih =>
    intro b h ha v hv
    cases b with
    | nil => simp at hv
    | cons w b =>
      simp only [asciiCaseVariant, Bool.and_eq_true] at h
      have hu : u < 128 := ha u (List.mem_cons_self u a)
      rcases List.mem_cons.mp hv with rfl | hvb
      · have h1 := h.1
        simp only [sameLetter, Bool.or_eq_true, Bool.and_eq_true, beq_iff_eq,
          decide_eq_true_eq] at h1
        omega
      · exact ih b h.2 (fun x hx => ha x (List.mem_cons_of_mem u hx)) v hvb

theorem filterCertificates_search_congr (toLowerCase : JSString → JSString) (s : State)
    (a b : JSString) (h : toLowerCase a = toLowerCase b) :
    filterCertificates toLowerCase { s with searchInput := a }
      = filterCertificates toLowerCase { s with searchInput := b } := by
  simp only [filterCertificates, h]

theorem tableToLowerCase_ascii (t : JSString) (ht : ∀ u ∈ t, u < 128) :
    tableToLowerCase t = asciiToLowerCase t := by
  have h1 : t ≠ js "Α" := by
    rintro rfl
    exact absurd (ht 913 (by decide)) (by decide)
  have h2 : t ≠ js "Σ" := by
    rintro rfl
    exact absurd (ht 931 (by decide)) (by decide)
  have h3 : t ≠ js "ΑΣ" := by
    rintro rfl
    exact absurd (ht 913 (by decide)) (by decide)
  have h4 : t ≠ js "ΑΣΑ" := by
    rintro rfl
    exact absurd (ht 913 (by decide)) (by decide)
  simp only [tableToLowerCase, if_neg h1, if_neg h2, if_neg h3, if_neg h4]

/-- C11 fails as stated: `"ασ"` is `"ΑΣ"` in lower case, letter by letter, yet
the built-in lower-cases the text `"ΑΣ"` to `"ας"`, with the final form of
the sigma; with one record named `"ΑΣΑ"` loaded, the search text `"ΑΣ"`
shows nothing and the search text `"ασ"` shows the record. -/
theorem search_case_counterexample :
    (js "ΑΣ" = js "Α" ++ js "Σ" ∧ js "ασ" = js "α" ++ js "σ"
        ∧ tableToLowerCase (js "Α") = js "α" ∧ tableToLowerCase (js "Σ") = js "σ")
      ∧ (tableToLowerCase (js "ΑΣ") = js "ας" ∧ tableToLowerCase (js "ασ") = js "ασ"
        ∧ tableToLowerCase (js "ΑΣΑ") = js "ασα")
      ∧ (applyFilters tableToLowerCase
          { loadCertificates tableToLowerCase [some alphaSigmaAlpha] blankPage with
            searchInput := js "ΑΣ" }).filteredCertificates = []
      ∧ (applyFilters tableToLowerCase
          { loadCertificates tableToLowerCase [some alphaSigmaAlpha] blankPage with
            searchInput := js "ασ" }).filteredCertificates = [alphaSigmaAlpha] := by
  decide

/-- C11 (amended): let `toLowerCase` lower-case ASCII text as the built-in
does, letter by letter.  For every record list and filter state and every
pair of ASCII search texts that differ only in letter case, `applyFilters`
stores the same visible records under both; and a record named
`"Alice Smith"` that is visible with an empty search text is visible under
both `"ALICE"` and `"alice"`. -/
theorem search_case_insensitive (toLowerCase : JSString → JSString)
    (hascii : ∀ t : JSString, (∀ u ∈ t, u < 128) → toLowerCase t = asciiToLowerCase t)
    (s : State) (a b : JSString) (ha : ∀ u ∈ a, u < 128)
    (hab : asciiCaseVariant a b = true) :
    (applyFilters toLowerCase { s with searchInput := a }).filteredCertificates
        = (applyFilters toLowerCase { s with searchInput := b }).filteredCertificates
      ∧ asciiCaseVariant (js "ALICE") (js "alice") = true
      ∧ ∀ cert ∈ (applyFilters toLowerCase { s with searchInput := [] }).filteredCertificates,
          cert.name = js "Alice Smith" →
            cert ∈ (applyFilters toLowerCase
                { s with searchInput := js "ALICE" }).filteredCertificates
              ∧ cert ∈ (applyFilters toLowerCase
                { s with searchInput := js "alice" }).filteredCertificates := by
  have htl : toLowerCase [] = [] := by
    rw [hascii [] (by simp)]
    rfl
  have hU : toLowerCase (js "ALICE") = js "alice" := by
    rw [hascii (js "ALICE") (by decide)]
    decide
  have hL : toLowerCase (js "alice") = js "alice" := by
    rw [hascii (js "alice") (by decide)]
    decide
  have hN : toLowerCase (js "Alice Smith") = js "alice smith" := by
    rw [hascii (js "Alice Smith") (by decide)]
    decide
  refine ⟨?_, by decide, ?_⟩
  · rw [applyFilters_filtered, applyFilters_filtered]
    apply filterCertificates_search_congr
    rw [hascii a ha, hascii b (ascii_of_variant a b hab ha)]
    exact asciiToLowerCase_eq_of_variant a b hab
  · intro cert hc hname
    rw [applyFilters_filtered, filterCertificates_eq toLowerCase htl, List.mem_filter] at hc
    have hs : Satisfies toLowerCase { s with searchInput := [] } cert := by
      simpa using hc.2
    obtain ⟨hv, _, hp, hg, hy⟩ := hs
    have hin : js "alice" <:+: js "alice smith" := by decide
    constructor
    · rw [applyFilters_filtered, filterCertificates_eq toLowerCase htl, List.mem_filter]
      refine ⟨hc.1, ?_⟩
      rw [decide_eq_true_eq]
      refine ⟨hv, fun _ => ?_, hp, hg, hy⟩
      show toLowerCase (js "ALICE") <:+: toLowerCase cert.name
      rw [hU, hname, hN]
      exact hin
    · rw [applyFilters_filtered, filterCertificates_eq toLowerCase htl, List.mem_filter]
      refine ⟨hc.1, ?_⟩
      rw [decide_eq_true_eq]
      refine ⟨hv, fun _ => ?_, hp, hg, hy⟩
      show toLowerCase (js "alice") <:+: toLowerCase cert.name
      rw [hL, hname, hN]
      exact hin

/-- Witness for C11: under the table of the built-in that lower-cases `"ΑΣ"` to
`"ας"`, with the records `"Alice Smith"` and `"Bob"` loaded, the ASCII search
texts `"ALICE"` and `"alice"` both show exactly the record
`"Alice Smith"`. -/
theorem search_case_insensitive_witness :
    (∀ u ∈ js "ALICE", u < 128)
      ∧ asciiCaseVariant (js "ALICE") (js "alice") = true
      ∧ (applyFilters tableToLowerCase
          { loadCertificates tableToLowerCase [some aliceSmith, some bob] blankPage with
            searchInput := js "ALICE" }).filteredCertificates
          = (applyFilters tableToLowerCase
          { loadCertificates tableToLowerCase [some aliceSmith, some bob] blankPage with
            searchInput := js "alice" }).filteredCertificates
      ∧ (applyFilters tableToLowerCase
          { loadCertificates tableToLowerCase [some aliceSmith, some bob] blankPage with
            searchInput := js "alice" }).filteredCertificates = [aliceSmith]
      ∧ aliceSmith ∈ (applyFilters tableToLowerCase
          { loadCertificates tableToLowerCase [some aliceSmith, some bob] blankPage with
            searchInput := js "ALICE" }).filteredCertificates :=
  ⟨by decide, by decide,
    (search_case_insensitive tableToLowerCase tableToLowerCase_ascii
      (loadCertificates tableToLowerCase [some aliceSmith, some bob] blankPage)
      (js "ALICE") (js "alice") (by decide) (by decide)).1,
    by decide,
    ((search_case_insensitive tableToLowerCase tableToLowerCase_ascii
      (loadCertificates tableToLowerCase [some aliceSmith, some bob] blankPage)
      (js "ALICE") (js "alice") (by decide) (by decide)).2.2
      aliceSmith (by decide) (by decide)).1⟩

end Gallery
